import Mathlib

/-!
Verification of the readability-metric component
(`components/readability.py`): the eight readability formulas, the
derived hard-word and long-word counts, and the extension-registration
guard. Python floats are modelled as real numbers; Python division,
which raises `ZeroDivisionError` on a zero divisor, is modelled as an
`Option`-valued operation (`none` = the exception propagates).
-/

namespace TextDescriptives

/-- The precomputed per-document statistics the component reads from the
document object (`doc._.sentence_length["sentence_length_mean"]`,
`doc._._n_sentences`, `doc._._n_syllables`, `doc._._filtered_tokens`, ...).
`n_syllables` is the per-token syllable-count list; `filtered_tokens` is
the content-token list. -/
structure DocumentStatistics where
  sentence_length_mean : ℝ
  token_length_mean : ℝ
  syllables_per_token_mean : ℝ
  n_sentences : ℕ
  n_tokens : ℕ
  n_syllables : List ℕ
  filtered_tokens : List String

/-- Python division `x / y`: raises `ZeroDivisionError` when `y = 0`
(modelled as `none`), otherwise the quotient. -/
noncomputable def pydiv (x y : ℝ) : Option ℝ :=
  if y = 0 then none else some (x / y)

/-- `hard_words = len([syllable for syllable in doc._._n_syllables if syllable >= 3])` -/
def hard_words (syllables : List ℕ) : ℕ :=
  (syllables.filter (fun syllable => 3 ≤ syllable)).length

/-- `long_words = len([t for t in doc._._filtered_tokens if len(t) > 6])` -/
def long_words (tokens : List String) : ℕ :=
  (tokens.filter (fun t => 6 < t.length)).length

/-- `Readability._flesch_reading_ease` -/
noncomputable def flesch_reading_ease (doc : DocumentStatistics) : ℝ :=
  206.835 - 1.015 * doc.sentence_length_mean - 84.6 * doc.syllables_per_token_mean

/-- `Readability._flesch_kincaid_grade` -/
noncomputable def flesch_kincaid_grade (doc : DocumentStatistics) : ℝ :=
  0.39 * doc.sentence_length_mean + 11.8 * doc.syllables_per_token_mean - 15.59

/-- `Readability._smog`: guarded by `n_sentences >= 3`; `** 0.5` on the
nonnegative radicand is square root. -/
noncomputable def smog (doc : DocumentStatistics) (hw : ℕ) : Option ℝ :=
  if 3 ≤ doc.n_sentences then
    (pydiv (hw : ℝ) (doc.n_sentences : ℝ)).map
      (fun q => 1.043 * Real.sqrt (30 * q) + 3.1291)
  else some 0

/-- `Readability._gunning_fog` -/
noncomputable def gunning_fog (doc : DocumentStatistics) (hw : ℕ) : Option ℝ :=
  (pydiv (hw : ℝ) (doc.n_tokens : ℝ)).map
    (fun q => 0.4 * (doc.sentence_length_mean + q * 100))

/-- `Readability._automated_readability_index` -/
noncomputable def automated_readability_index (doc : DocumentStatistics) : ℝ :=
  4.71 * doc.token_length_mean + 0.5 * doc.sentence_length_mean - 21.43

/-- `Readability._coleman_liau_index` -/
noncomputable def coleman_liau_index (doc : DocumentStatistics) : Option ℝ :=
  (pydiv (doc.n_sentences : ℝ) doc.sentence_length_mean).map
    (fun s => 0.0588 * (doc.token_length_mean * 100) - 0.296 * (s * 100) - 15.8)

/-- `Readability._lix` -/
noncomputable def lix (doc : DocumentStatistics) (lw : ℕ) : Option ℝ :=
  (pydiv (lw : ℝ) (doc.n_tokens : ℝ)).map
    (fun q => doc.sentence_length_mean + q * 100)

/-- `Readability._rix` -/
noncomputable def rix (doc : DocumentStatistics) (lw : ℕ) : Option ℝ :=
  pydiv (lw : ℝ) (doc.n_sentences : ℝ)

/-- `Readability.readability`: derives `hard_words`/`long_words` from the
per-token lists, then builds the eight-entry mapping; the dict literal
evaluates the values in source order, and a `ZeroDivisionError` raised by
any of them propagates (the whole call returns no mapping, `none`). -/
noncomputable def readability (doc : DocumentStatistics) :
    Option (List (String × ℝ)) := do
  let hw := hard_words doc.n_syllables
  let lw := long_words doc.filtered_tokens
  let s ← smog doc hw
  let g ← gunning_fog doc hw
  let c ← coleman_liau_index doc
  let l ← lix doc lw
  let r ← rix doc lw
  return [("flesch_reading_ease", flesch_reading_ease doc),
          ("flesch_kincaid_grade", flesch_kincaid_grade doc),
          ("smog", s),
          ("gunning_fog", g),
          ("automated_readability_index", automated_readability_index doc),
          ("coleman_liau_index", c),
          ("lix", l),
          ("rix", r)]

/-- The eight metric names, in the order the source dict literal lists
them. -/
def metric_keys : List String :=
  ["flesch_reading_ease", "flesch_kincaid_grade", "smog", "gunning_fog",
   "automated_readability_index", "coleman_liau_index", "lix", "rix"]

/-- Models the external spaCy `Doc.set_extension`: registering a name that
is already registered raises (modelled as `none`); otherwise the name is
added to the registry. -/
def set_extension (name : String) (exts : List String) : Option (List String) :=
  if name ∈ exts then none else some (name :: exts)

/-- Models the external spaCy `Doc.has_extension`. -/
def has_extension (name : String) (exts : List String) : Prop :=
  name ∈ exts

instance (name : String) (exts : List String) :
    Decidable (has_extension name exts) :=
  inferInstanceAs (Decidable (name ∈ exts))

/-- `Readability.__init__`: `if not Doc.has_extension("readability"):
Doc.set_extension("readability", getter=self.readability)`; when the
extension is already registered nothing happens and the registry is
returned unchanged. -/
def readability_register (exts : List String) : Option (List String) :=
  if has_extension "readability" exts then some exts
  else set_extension "readability" exts

/-- Concrete statistics of the spec's worked scenario: mean sentence
length 10, mean syllables per token 1.5, mean token length 5, 4 sentences,
40 tokens, per-token lists realizing 4 hard words and 6 long words. -/
noncomputable def exampleStats : DocumentStatistics :=
  ⟨10, 5, 1.5, 4, 40, [3, 3, 4, 5, 1, 2, 2, 1],
   ["abcdefgh", "abcdefg", "1234567", "longword", "another", "seventy",
    "short", "ab"]⟩

/-- Degenerate statistics: an empty document (`n_tokens = 0`,
`n_sentences = 0`, all means 0). -/
noncomputable def degenStats : DocumentStatistics :=
  ⟨0, 0, 0, 0, 0, [], []⟩

/-- Degenerate statistics with `n_sentences = 0` but nonzero token count
and means. -/
noncomputable def degenStatsNoSentences : DocumentStatistics :=
  ⟨2, 3, 1, 0, 5, [1, 1, 1, 1, 1], ["alpha", "beta"]⟩

lemma pydiv_of_ne (x y : ℝ) (h : y ≠ 0) : pydiv x y = some (x / y) := by
  simp [pydiv, h]

lemma pydiv_of_zero (x : ℝ) : pydiv x 0 = none := by
  simp [pydiv]

lemma cast_ne_zero_of_three_le {n : ℕ} (h : 3 ≤ n) : (n : ℝ) ≠ 0 :=
  Nat.cast_ne_zero.mpr (lt_of_lt_of_le (by norm_num) h).ne'

lemma smog_of_three_le (doc : DocumentStatistics) (hw : ℕ)
    (h : 3 ≤ doc.n_sentences) :
    smog doc hw =
      some (1.043 * Real.sqrt (30 * ((hw : ℝ) / (doc.n_sentences : ℝ))) + 3.1291) := by
  simp [smog, h, pydiv_of_ne _ _ (cast_ne_zero_of_three_le h)]

lemma smog_eq_some (doc : DocumentStatistics) (hw : ℕ) :
    ∃ x, smog doc hw = some x := by
  by_cases h : 3 ≤ doc.n_sentences
  · exact ⟨_, smog_of_three_le doc hw h⟩
  · exact ⟨0, by simp [smog, h]⟩

/-- C2: for every `DocumentStatistics`, if `n_sentences ≥ 3` then
`smog = 1.043 * sqrt (30 * (hard_words / n_sentences)) + 3.1291`, otherwise
`smog = 0.0`; in particular `n_sentences = 2` gives `0.0` regardless of
`hard_words`, and `n_sentences = 3` with `hard_words = 0` gives `3.1291`. -/
theorem smog_formula (doc : DocumentStatistics) (hw : ℕ) :
    (3 ≤ doc.n_sentences →
      smog doc hw =
        some (1.043 * Real.sqrt (30 * ((hw : ℝ) / (doc.n_sentences : ℝ))) + 3.1291)) ∧
    (doc.n_sentences < 3 → smog doc hw = some 0) ∧
    (doc.n_sentences = 2 → smog doc hw = some 0) ∧
    (doc.n_sentences = 3 → hw = 0 → smog doc hw = some 3.1291) := by
  refine ⟨fun h => smog_of_three_le doc hw h, fun h => ?_, fun h => ?_,
    fun h h0 => ?_⟩
  · simp [smog, Nat.not_le.mpr h]
  · simp [smog, h]
  · subst h0
    rw [smog_of_three_le doc 0 (le_of_eq h.symm)]
    norm_num [Real.sqrt_zero]

/-- Witness for C2: at `n_sentences = 2` the sentinel 0.0 is returned, and
at `n_sentences = 3` with no hard words the value is exactly 3.1291. -/
theorem smog_formula_witness :
    smog ⟨0, 0, 0, 2, 0, [], []⟩ 7 = some 0 ∧
    smog ⟨0, 0, 0, 3, 0, [], []⟩ 0 = some 3.1291 :=
  ⟨(smog_formula ⟨0, 0, 0, 2, 0, [], []⟩ 7).2.2.1 rfl,
   (smog_formula ⟨0, 0, 0, 3, 0, [], []⟩ 0).2.2.2 rfl rfl⟩

/-- C10: the smog value always exists and is either exactly the sentinel
0.0 (when `n_sentences < 3`) or at least 3.1291 (when `n_sentences ≥ 3`);
it is never negative and never strictly between 0.0 and 3.1291. -/
theorem smog_sentinel_gap (doc : DocumentStatistics) (hw : ℕ) :
    ∃ x, smog doc hw = some x ∧
      ((doc.n_sentences < 3 ∧ x = 0) ∨ (3 ≤ doc.n_sentences ∧ 3.1291 ≤ x)) := by
  by_cases h : 3 ≤ doc.n_sentences
  · refine ⟨1.043 * Real.sqrt (30 * ((hw : ℝ) / (doc.n_sentences : ℝ))) + 3.1291,
      smog_of_three_le doc hw h, Or.inr ⟨h, ?_⟩⟩
    have hsq : 0 ≤ 1.043 * Real.sqrt (30 * ((hw : ℝ) / (doc.n_sentences : ℝ))) := by
      positivity
    linarith
  · exact ⟨0, by simp [smog, h], Or.inl ⟨Nat.not_le.mp h, rfl⟩⟩

/-- C5: `hard_words` counts exactly the per-token syllable entries ≥ 3 and
`long_words` counts exactly the filtered tokens of character length > 6;
a 2-syllable token is not hard and a 6-character token is not long. -/
theorem hard_long_words_counts :
    (∀ syllables : List ℕ,
      hard_words syllables = syllables.countP (fun syllable => 3 ≤ syllable)) ∧
    (∀ tokens : List String,
      long_words tokens = tokens.countP (fun t => 6 < t.length)) ∧
    hard_words [2] = 0 ∧ long_words ["sixsix"] = 0 := by
  refine ⟨fun syllables => ?_, fun tokens => ?_, by decide, by decide⟩
  · simp [hard_words, List.countP_eq_length_filter]
  · simp [long_words, List.countP_eq_length_filter]

/-- C6: whenever `sentence_length_mean ≠ 0`, the automated readability
index is `4.71·tl + 0.5·sl − 21.43` and the Coleman-Liau index is
`0.0588·(tl·100) − 0.296·((ns/sl)·100) − 15.8`. -/
theorem ari_coleman_formulas (doc : DocumentStatistics)
    (h : doc.sentence_length_mean ≠ 0) :
    automated_readability_index doc =
      4.71 * doc.token_length_mean + 0.5 * doc.sentence_length_mean - 21.43 ∧
    coleman_liau_index doc =
      some (0.0588 * (doc.token_length_mean * 100) -
        0.296 * ((doc.n_sentences : ℝ) / doc.sentence_length_mean * 100) - 15.8) := by
  exact ⟨rfl, by simp [coleman_liau_index, pydiv_of_ne _ _ h]⟩

/-- Witness for C6: the two formulas evaluated on the worked scenario,
where the mean sentence length 10 is nonzero. -/
theorem ari_coleman_formulas_witness :
    automated_readability_index exampleStats =
      4.71 * exampleStats.token_length_mean +
        0.5 * exampleStats.sentence_length_mean - 21.43 ∧
    coleman_liau_index exampleStats =
      some (0.0588 * (exampleStats.token_length_mean * 100) -
        0.296 * ((exampleStats.n_sentences : ℝ) /
          exampleStats.sentence_length_mean * 100) - 15.8) :=
  ari_coleman_formulas exampleStats (by norm_num [exampleStats])

/-- C7: with all other fields fixed, a strictly larger mean sentence
length gives a strictly smaller Flesch reading ease and a strictly larger
Flesch-Kincaid grade. -/
theorem flesch_monotone (d₁ d₂ : DocumentStatistics)
    (hspt : d₁.syllables_per_token_mean = d₂.syllables_per_token_mean)
    (hlt : d₁.sentence_length_mean < d₂.sentence_length_mean) :
    flesch_reading_ease d₂ < flesch_reading_ease d₁ ∧
    flesch_kincaid_grade d₁ < flesch_kincaid_grade d₂ := by
  unfold flesch_reading_ease flesch_kincaid_grade
  rw [hspt]
  constructor <;> linarith

/-- Witness for C7: lengthening sentences from mean 10 to mean 20 lowers
reading ease and raises the grade. -/
theorem flesch_monotone_witness :
    flesch_reading_ease ⟨20, 5, 1.5, 4, 40, [], []⟩ <
      flesch_reading_ease exampleStats ∧
    flesch_kincaid_grade exampleStats <
      flesch_kincaid_grade ⟨20, 5, 1.5, 4, 40, [], []⟩ :=
  flesch_monotone exampleStats ⟨20, 5, 1.5, 4, 40, [], []⟩
    (by norm_num [exampleStats]) (by norm_num [exampleStats])

/-- C8: the readability computation is a pure function of the document
statistics: any two statistics bundles agreeing on every consumed field
produce identical result mappings, so two calls on the same unmodified
input are identical (no hidden state). -/
theorem readability_deterministic (d₁ d₂ : DocumentStatistics)
    (h₁ : d₁.sentence_length_mean = d₂.sentence_length_mean)
    (h₂ : d₁.token_length_mean = d₂.token_length_mean)
    (h₃ : d₁.syllables_per_token_mean = d₂.syllables_per_token_mean)
    (h₄ : d₁.n_sentences = d₂.n_sentences)
    (h₅ : d₁.n_tokens = d₂.n_tokens)
    (h₆ : d₁.n_syllables = d₂.n_syllables)
    (h₇ : d₁.filtered_tokens = d₂.filtered_tokens) :
    readability d₁ = readability d₂ := by
  obtain ⟨a₁, b₁, c₁, e₁, f₁, g₁, k₁⟩ := d₁
  obtain ⟨a₂, b₂, c₂, e₂, f₂, g₂, k₂⟩ := d₂
  simp only at h₁ h₂ h₃ h₄ h₅ h₆ h₇
  subst h₁ h₂ h₃ h₄ h₅ h₆ h₇
  rfl

/-- Witness for C8: two invocations on the worked scenario agree. -/
theorem readability_deterministic_witness :
    readability exampleStats = readability exampleStats :=
  readability_deterministic exampleStats exampleStats
    rfl rfl rfl rfl rfl rfl rfl

/-- C9: registration is idempotent: when the `readability` extension is
already registered the registration step returns the registry unchanged
and raises no error, and running the step a second time after any
successful run is a no-op. -/
theorem register_idempotent (exts : List String) :
    ("readability" ∈ exts → readability_register exts = some exts) ∧
    (∀ e', readability_register exts = some e' →
      readability_register e' = some e') := by
  constructor
  · intro h
    simp [readability_register, has_extension, h]
  · intro e' h
    by_cases hm : "readability" ∈ exts
    · simp [readability_register, has_extension, hm] at h
      subst h
      simp [readability_register, has_extension, hm]
    · simp [readability_register, has_extension, set_extension, hm] at h
      subst h
      simp [readability_register, has_extension]

/-- Witness for C9: registering on a registry that already holds the
extension leaves it unchanged, and a second run after a fresh
registration is a no-op. -/
theorem register_idempotent_witness :
    readability_register ["readability"] = some ["readability"] ∧
    readability_register ["readability", "fresh"] = some ["readability", "fresh"] :=
  ⟨(register_idempotent ["readability"]).1 (by decide),
   (register_idempotent ["fresh"]).2 ["readability", "fresh"] (by decide)⟩

lemma readability_of_nondegenerate (doc : DocumentStatistics)
    (hnt : doc.n_tokens ≠ 0) (hns : doc.n_sentences ≠ 0)
    (hsl : doc.sentence_length_mean ≠ 0) (s : ℝ)
    (hs : smog doc (hard_words doc.n_syllables) = some s) :
    readability doc = some
      [("flesch_reading_ease", flesch_reading_ease doc),
       ("flesch_kincaid_grade", flesch_kincaid_grade doc),
       ("smog", s),
       ("gunning_fog", 0.4 * (doc.sentence_length_mean +
         (hard_words doc.n_syllables : ℝ) / (doc.n_tokens : ℝ) * 100)),
       ("automated_readability_index", automated_readability_index doc),
       ("coleman_liau_index", 0.0588 * (doc.token_length_mean * 100) -
         0.296 * ((doc.n_sentences : ℝ) / doc.sentence_length_mean * 100) - 15.8),
       ("lix", doc.sentence_length_mean +
         (long_words doc.filtered_tokens : ℝ) / (doc.n_tokens : ℝ) * 100),
       ("rix", (long_words doc.filtered_tokens : ℝ) / (doc.n_sentences : ℝ))] := by
  have hntR : (doc.n_tokens : ℝ) ≠ 0 := Nat.cast_ne_zero.mpr hnt
  have hnsR : (doc.n_sentences : ℝ) ≠ 0 := Nat.cast_ne_zero.mpr hns
  simp [readability, hs, gunning_fog, coleman_liau_index, lix, rix,
    pydiv_of_ne _ _ hntR, pydiv_of_ne _ _ hnsR, pydiv_of_ne _ _ hsl]

/-- C1 (amended): a zero divisor raises `ZeroDivisionError` rather than
producing a non-finite float: with `n_tokens = 0`, `gunning_fog` and `lix`
fail (`none`) and the whole `readability` call propagates the exception,
returning no mapping; with `n_sentences = 0`, `rix` fails; with
`sentence_length_mean = 0`, `coleman_liau_index` fails. -/
theorem degenerate_division_raises (doc : DocumentStatistics) (hw lw : ℕ) :
    (doc.n_tokens = 0 →
      gunning_fog doc hw = none ∧ lix doc lw = none ∧ readability doc = none) ∧
    (doc.n_sentences = 0 → rix doc lw = none) ∧
    (doc.sentence_length_mean = 0 → coleman_liau_index doc = none) := by
  refine ⟨fun hnt => ⟨?_, ?_, ?_⟩, fun hns => ?_, fun hsl => ?_⟩
  · simp [gunning_fog, pydiv, hnt]
  · simp [lix, pydiv, hnt]
  · obtain ⟨s, hs⟩ := smog_eq_some doc (hard_words doc.n_syllables)
    simp [readability, hs, gunning_fog, pydiv, hnt]
  · simp [rix, pydiv, hns]
  · simp [coleman_liau_index, pydiv, hsl]

/-- Counterexample to C1 as stated: on the empty document
(`n_tokens = 0`) the divisions do not evaluate to a non-finite float —
they raise, so `gunning_fog` and `lix` produce no value and `readability`
returns no result mapping at all. -/
theorem degenerate_division_counterexample :
    gunning_fog degenStats 0 = none ∧ lix degenStats 0 = none ∧
    readability degenStats = none := by
  refine ⟨?_, ?_, ?_⟩
  · simp [gunning_fog, pydiv, degenStats]
  · simp [lix, pydiv, degenStats]
  · simp [readability, smog, gunning_fog, pydiv, degenStats, hard_words,
      long_words]

/-- Witness for C1 (amended), at the empty document. -/
theorem degenerate_division_witness :
    readability degenStats = none ∧ rix degenStats 0 = none ∧
    coleman_liau_index degenStats = none :=
  ⟨((degenerate_division_raises degenStats 0 0).1 rfl).2.2,
   (degenerate_division_raises degenStats 0 0).2.1 rfl,
   (degenerate_division_raises degenStats 0 0).2.2 rfl⟩

/-- C3 (amended): whenever the computation does return a mapping it has
exactly the eight keys, in order, with no key missing or added; and for
every non-degenerate statistics bundle (`n_tokens`, `n_sentences` and
`sentence_length_mean` all nonzero) a mapping is returned, every value a
real number. -/
theorem readability_keys_exact (doc : DocumentStatistics) :
    (∀ m, readability doc = some m → m.map Prod.fst = metric_keys) ∧
    (doc.n_tokens ≠ 0 → doc.n_sentences ≠ 0 → doc.sentence_length_mean ≠ 0 →
      ∃ m, readability doc = some m ∧ m.map Prod.fst = metric_keys) := by
  constructor
  · intro m h
    simp only [readability, bind, Option.bind_eq_some, pure,
      Option.some.injEq] at h
    obtain ⟨s, hs, g, hg, c, hc, l, hl, r, hr, hm⟩ := h
    subst hm
    simp [metric_keys]
  · intro hnt hns hsl
    obtain ⟨s, hs⟩ := smog_eq_some doc (hard_words doc.n_syllables)
    exact ⟨_, readability_of_nondegenerate doc hnt hns hsl s hs,
      by simp [metric_keys]⟩

/-- Counterexample to C3 as stated: with `n_sentences = 0` (but a nonzero
token count) `rix` raises, so `readability` returns no mapping at all —
there is no eight-key output "regardless of input degeneracy". -/
theorem readability_keys_counterexample :
    readability degenStatsNoSentences = none := by
  norm_num [readability, smog, gunning_fog, coleman_liau_index, lix, rix,
    pydiv, degenStatsNoSentences, hard_words, long_words]

/-- Witness for C3 (amended): the worked scenario is non-degenerate and
yields the eight-key mapping. -/
theorem readability_keys_witness :
    ∃ m, readability exampleStats = some m ∧ m.map Prod.fst = metric_keys :=
  (readability_keys_exact exampleStats).2 (by norm_num [exampleStats])
    (by norm_num [exampleStats]) (by norm_num [exampleStats])

/-- C4: on the spec's worked scenario (mean sentence length 10, mean
syllables per token 1.5, mean token length 5, 4 sentences, 40 tokens,
4 hard words, 6 long words) the computation returns exactly
`flesch_reading_ease = 69.785`, `flesch_kincaid_grade = 6.01`,
`smog = 1.043·sqrt 30 + 3.1291`, `gunning_fog = 8.0`, `rix = 1.5`
(together with the remaining three metrics). -/
theorem readability_example_values :
    readability exampleStats = some
      [("flesch_reading_ease", (69.785 : ℝ)),
       ("flesch_kincaid_grade", 6.01),
       ("smog", 1.043 * Real.sqrt 30 + 3.1291),
       ("gunning_fog", 8.0),
       ("automated_readability_index", 7.12),
       ("coleman_liau_index", 1.76),
       ("lix", 25),
       ("rix", 1.5)] := by
  have h4 : hard_words exampleStats.n_syllables = 4 := by decide
  have h6 : long_words exampleStats.filtered_tokens = 6 := by decide
  have hs : smog exampleStats (hard_words exampleStats.n_syllables) =
      some (1.043 * Real.sqrt 30 + 3.1291) := by
    rw [smog_of_three_le _ _ (by norm_num [exampleStats]), h4]
    norm_num [exampleStats]
  rw [readability_of_nondegenerate exampleStats (by norm_num [exampleStats])
    (by norm_num [exampleStats]) (by norm_num [exampleStats]) _ hs, h4, h6]
  norm_num [exampleStats, flesch_reading_ease, flesch_kincaid_grade,
    automated_readability_index]

end TextDescriptives
